import Mathlib

/-!
Verification of the dual-mode fleet-maintenance chatbot (src/app.py and
src/main.py) against its natural-language specification.

The repository contains two near-duplicate pipeline variants:
`src/app.py` (display limit 50, guarded Mongo collection, outer try in the
fleet branch, truncated interpreter fallback) and `src/main.py` (display
limit 100, unguarded Mongo calls, progress yields, full-text interpreter
fallback).  Both variants are embedded below; definitions carry the source
function names with an `_app` / `_main` suffix naming the file they come
from.

External capabilities (the Azure OpenAI completion endpoint, the Databricks
warehouse connection, the MongoDB session store) are modelled as explicit
behaviour records quantified over in the theorems: a field says whether each
call succeeds and what it returns, so "any behaviour of the external
capabilities" is literal universal quantification.

Python's `\s` character class and `str.strip()` are modelled over the ASCII
whitespace characters; none of the claims depend on non-ASCII whitespace.
-/

namespace Chatbot

/-- ASCII whitespace, the characters matched by Python's default `\s` /
`str.strip()` on the inputs relevant here: space, tab, newline, carriage
return, vertical tab, form feed. -/
def pyWs (c : Char) : Bool :=
  c = ' ' || c = '\t' || c = '\n' || c = '\r' || c = Char.ofNat 11 || c = Char.ofNat 12

/-- Python `str.strip()` on a character list: drop whitespace from the front,
then from the back. -/
def pyStripL (l : List Char) : List Char :=
  (l.dropWhile pyWs).rdropWhile pyWs

/-- Python `str.strip()`. -/
def pyStrip (s : String) : String :=
  ⟨pyStripL s.data⟩

/-- Python slicing `s[:n]`. -/
def pyTake (n : Nat) (s : String) : String :=
  ⟨s.data.take n⟩

/-- The characters of the opening code-fence marker recognised by the cleanup
regex `r'<fence>sql\s*|\s*<fence>'` in `generate_sql_query`. -/
def fenceSql : List Char :=
  ("```sql").data

/-- The characters of a bare triple-backtick fence. -/
def fence : List Char :=
  ("```").data

/-- One pass of Python's `re.sub(r'<fence>sql\s*|\s*<fence>', '', s)` from
`generate_sql_query` (src/app.py line 165, src/main.py line 152), with an
explicit fuel argument so the definition is structural and kernel-evaluable.
The scan reproduces `re.sub`'s leftmost-first, non-overlapping semantics: at
each position the first alternative (the literal fence word followed by
greedy whitespace) is tried before the second (greedy whitespace followed by
a bare fence); a match is removed and scanning resumes after it.  Fuel equal
to the input length always suffices, since every step consumes at least one
character. -/
def subFencesGo : Nat → List Char → List Char
  | 0, l => l
  | _ + 1, [] => []
  | fuel + 1, c :: rest =>
    if fenceSql.isPrefixOf (c :: rest) then
      subFencesGo fuel (((c :: rest).drop 6).dropWhile pyWs)
    else if fence.isPrefixOf ((c :: rest).dropWhile pyWs) then
      subFencesGo fuel (((c :: rest).dropWhile pyWs).drop 3)
    else
      c :: subFencesGo fuel rest

/-- The regex substitution pass, with fuel fixed at the input length. -/
def subFences (l : List Char) : List Char :=
  subFencesGo l.length l

/-- The full cleanup step of `generate_sql_query`:
`sql = content.strip(); sql = re.sub(fence_pattern, '', sql); sql = sql.strip()`. -/
def cleanSql (s : String) : String :=
  ⟨pyStripL (subFences (pyStripL s.data))⟩

/-- Whether a character list contains a triple-backtick fence anywhere.  A
string with `hasFence = false` is "already clean" in the sense of the spec:
the cleanup regex has nothing to match in it. -/
def hasFence : List Char → Bool
  | [] => false
  | c :: rest => fence.isPrefixOf (c :: rest) || hasFence rest

theorem strExt {s t : String} (h : s.data = t.data) : s = t := by
  cases s; cases t; cases h; rfl

theorem dropWhile_head_false :
    ∀ (l : List Char) (c : Char) (u : List Char),
      l.dropWhile pyWs = c :: u → pyWs c = false := by
  intro l
  induction l with
  | nil => intro c u h; cases h
  | cons a t ih =>
    intro c u h
    by_cases ha : pyWs a = true
    · rw [List.dropWhile_cons, if_pos ha] at h
      exact ih c u h
    · rw [List.dropWhile_cons, if_neg ha] at h
      cases h
      cases hp : pyWs a with
      | false => rfl
      | true => exact absurd hp ha

theorem hasFence_spec (l : List Char) :
    hasFence l = true ↔ fence <:+: l := by
  induction l with
  | nil =>
    simp only [hasFence, List.infix_nil]
    constructor
    · intro h; cases h
    · intro h; cases h
  | cons c rest ih =>
    simp only [hasFence, Bool.or_eq_true, List.isPrefixOf_iff_prefix, ih,
      List.infix_cons_iff]

theorem hasFence_eq_false_mono {l₁ l₂ : List Char}
    (h : l₁ <:+: l₂) (hl : hasFence l₂ = false) : hasFence l₁ = false := by
  by_contra hc
  have h1 : hasFence l₁ = true := by
    cases hf : hasFence l₁ with
    | true => rfl
    | false => exact absurd hf hc
  have : fence <:+: l₂ := ((hasFence_spec l₁).mp h1).trans h
  have : hasFence l₂ = true := (hasFence_spec l₂).mpr this
  rw [this] at hl
  cases hl

theorem pyStripL_shrinks (l : List Char) : pyStripL l <:+: l := by
  unfold pyStripL
  have h1 : (l.dropWhile pyWs).rdropWhile pyWs <+: l.dropWhile pyWs :=
    List.rdropWhile_prefix pyWs (l.dropWhile pyWs)
  have h2 : l.dropWhile pyWs <:+ l := List.dropWhile_suffix pyWs
  exact h1.isInfix.trans h2.isInfix

theorem pyStripL_idempotent (l : List Char) : pyStripL (pyStripL l) = pyStripL l := by
  unfold pyStripL
  have hdrop : List.dropWhile pyWs ((l.dropWhile pyWs).rdropWhile pyWs) =
      (l.dropWhile pyWs).rdropWhile pyWs := by
    have hpre : (l.dropWhile pyWs).rdropWhile pyWs <+: l.dropWhile pyWs :=
      List.rdropWhile_prefix pyWs (l.dropWhile pyWs)
    cases hp : (l.dropWhile pyWs).rdropWhile pyWs with
    | nil => simp
    | cons c t =>
      have hcd : ∃ u, l.dropWhile pyWs = c :: u := by
        rcases hpre with ⟨r, hr⟩
        rw [hp] at hr
        exact ⟨t ++ r, by simpa using hr.symm⟩
      rcases hcd with ⟨u, hu⟩
      have hc : pyWs c = false := dropWhile_head_false l c u hu
      simp [List.dropWhile_cons, hc]
  rw [hdrop, List.rdropWhile_idempotent]

theorem subFencesGo_eq_self_of_noFence :
    ∀ (fuel : Nat) (l : List Char), hasFence l = false → subFencesGo fuel l = l := by
  intro fuel
  induction fuel with
  | zero => intro l _; rfl
  | succ n ih =>
    intro l hl
    cases l with
    | nil => rfl
    | cons c rest =>
      have hor : (fence.isPrefixOf (c :: rest)) = false ∧ hasFence rest = false := by
        have := hl
        unfold hasFence at this
        exact ⟨by cases h : fence.isPrefixOf (c :: rest) <;> simp_all,
               by cases h : hasFence rest <;> simp_all⟩
      have hnotSql : fenceSql.isPrefixOf (c :: rest) = false := by
        cases h : fenceSql.isPrefixOf (c :: rest) with
        | false => rfl
        | true =>
          have hsql : fenceSql <+: (c :: rest) := List.isPrefixOf_iff_prefix.mp h
          have hff : fence <+: fenceSql := ⟨[ 's', 'q', 'l' ], rfl⟩
          have : fence <+: (c :: rest) := hff.trans hsql
          have : fence.isPrefixOf (c :: rest) = true := List.isPrefixOf_iff_prefix.mpr this
          rw [this] at hor
          exact absurd hor.1 (by simp)
      have hnotBare : fence.isPrefixOf ((c :: rest).dropWhile pyWs) = false := by
        cases h : fence.isPrefixOf ((c :: rest).dropWhile pyWs) with
        | false => rfl
        | true =>
          have hpre : fence <+: ((c :: rest).dropWhile pyWs) :=
            List.isPrefixOf_iff_prefix.mp h
          have hsuf : (c :: rest).dropWhile pyWs <:+ (c :: rest) :=
            List.dropWhile_suffix pyWs
          have hinf : fence <:+: (c :: rest) := hpre.isInfix.trans hsuf.isInfix
          have : hasFence (c :: rest) = true :=
            (hasFence_spec (c :: rest)).mpr hinf
          rw [this] at hl
          cases hl
      unfold subFencesGo
      rw [hnotSql, hnotBare]
      simp only [Bool.false_eq_true, if_false]
      rw [ih rest hor.2]

theorem subFences_eq_self_of_noFence {l : List Char} (h : hasFence l = false) :
    subFences l = l :=
  subFencesGo_eq_self_of_noFence l.length l h

theorem cleanSql_eq_pyStrip_of_noFence {s : String} (h : hasFence s.data = false) :
    cleanSql s = pyStrip s := by
  unfold cleanSql pyStrip
  have h1 : hasFence (pyStripL s.data) = false :=
    hasFence_eq_false_mono (pyStripL_shrinks s.data) h
  rw [subFences_eq_self_of_noFence h1, pyStripL_idempotent]

theorem pyStrip_idempotent (s : String) : pyStrip (pyStrip s) = pyStrip s := by
  apply strExt
  show pyStripL (pyStripL s.data) = pyStripL s.data
  exact pyStripL_idempotent s.data

/-- C7 (amended): the fence-stripping/cleanup step of `generate_sql_query` is
idempotent on every already-clean SQL string, where already-clean means the
string contains no triple-backtick fence: for such strings a second
application of the cleanup yields the same string.  (The original claim,
idempotence on all of the cleanup's own outputs, is false: removing a fence
can join surrounding backticks into a new fence, see the counterexample.) -/
theorem C7_cleanSql_idempotent_on_clean (s : String)
    (h : hasFence s.data = false) :
    cleanSql (cleanSql s) = cleanSql s := by
  have h1 : cleanSql s = pyStrip s := cleanSql_eq_pyStrip_of_noFence h
  have h2 : hasFence (pyStrip s).data = false :=
    hasFence_eq_false_mono (pyStripL_shrinks s.data) h
  rw [h1, cleanSql_eq_pyStrip_of_noFence h2, pyStrip_idempotent]

/-- C7 counterexample: the cleanup step applied to the string made of two
backticks, a space, and four backticks yields a bare triple-backtick fence,
and a second application erases it — so the cleanup is not idempotent on all
of its own outputs, refuting the claim as stated. -/
theorem C7_counterexample :
    cleanSql (cleanSql ("`` ````")) ≠ cleanSql ("`` ````") := by
  decide

/-- C7 witness: the amended idempotence theorem applied at the concrete
already-clean SQL string `SELECT 1`. -/
theorem C7_witness :
    hasFence (String.data ("SELECT 1")) = false ∧
      cleanSql (cleanSql ("SELECT 1")) = cleanSql ("SELECT 1") :=
  ⟨by decide, C7_cleanSql_idempotent_on_clean ("SELECT 1") (by decide)⟩

/-- Behaviour of the Databricks warehouse capability for one
`execute_sql_query` invocation: whether each of `connect`, `cursor()`,
`execute`, and `fetchall` succeeds, the message of the exception raised by
the first failing step, the fetched rows and column names on success, and
whether each `close` call itself succeeds.  Row values are modelled as the
strings Python's f-string interpolation renders them to. -/
structure Warehouse where
  connectOk : Bool
  cursorOk : Bool
  executeOk : Bool
  fetchOk : Bool
  errMsg : String
  rows : List (List String)
  cols : List String
  cursorCloseOk : Bool
  connCloseOk : Bool
deriving DecidableEq

/-- Outcome of one `execute_sql_query` call: the returned
`(formatted_text, raw_rows)` pair, how many times `cursor.close` and
`connection.close` were invoked, and whether an exception escaped the
function. -/
structure ExecResult where
  text : String
  rows : List (List String)
  cursorCloses : Nat
  connCloses : Nat
  raised : Bool
deriving DecidableEq

/-- Insert into an association list with Python `dict` semantics: an existing
key keeps its position and gets the new value, a new key is appended. -/
def dictInsert (k v : String) : List (String × String) → List (String × String)
  | [] => [(k, v)]
  | (k', v') :: rest =>
    if k' = k then (k', v) :: rest else (k', v') :: dictInsert k v rest

/-- Python `dict(zip(columns, row))` as an ordered association list:
pairs are truncated to the shorter list, duplicate column names collapse to
their last value at the first occurrence's position. -/
def dictOfZip (cols vals : List String) : List (String × String) :=
  (List.zip cols vals).foldl (fun d kv => dictInsert kv.1 kv.2 d) []

/-- One row's block of the formatted output: a `column: value` line per
dict entry, followed by the blank-line separator (the per-row `"\n"` the
loop appends after the column lines). -/
def rowBlock (cols row : List String) : String :=
  ((dictOfZip cols row).foldl
    (fun acc kv => acc ++ kv.1 ++ (": ") ++ kv.2 ++ ("\n")) ("")) ++ ("\n")

/-- Concatenation of a list of strings (used to restate the row loop). -/
def strJoin : List String → String
  | [] => ""
  | s :: rest => s ++ strJoin rest

/-- Row formatting of `execute_sql_query` in src/app.py (lines 190..206):
header with the row count; a single compact line when there is exactly one
row and one column; otherwise blocks for the first `min 50 N` rows and a
truncation suffix when more than the display limit were fetched. -/
def formatResultsApp (rows : List (List String)) (cols : List String) : String :=
  let header := ("Query Results (") ++ toString rows.length ++ (" rows):\n\n")
  if rows.length = 1 ∧ cols.length = 1 then
    header ++ cols.headD ("") ++ (": ") ++ (rows.headD []).headD ("") ++ ("\n")
  else
    let displayLimit := min 50 rows.length
    let body := (rows.take displayLimit).foldl (fun acc row => acc ++ rowBlock cols row) header
    if rows.length > displayLimit then
      body ++ ("\n(Showing first ") ++ toString displayLimit ++ (" of ")
        ++ toString rows.length ++ (" results)")
    else body

/-- Row formatting of `execute_sql_query` in src/main.py (lines 175..190):
identical except the display limit is the literal 100 (`results[:100]`,
`len(results) > 100`, `"first 100"`). -/
def formatResultsMain (rows : List (List String)) (cols : List String) : String :=
  let header := ("Query Results (") ++ toString rows.length ++ (" rows):\n\n")
  if rows.length = 1 ∧ cols.length = 1 then
    header ++ cols.headD ("") ++ (": ") ++ (rows.headD []).headD ("") ++ ("\n")
  else
    let body := (rows.take 100).foldl (fun acc row => acc ++ rowBlock cols row) header
    if rows.length > 100 then
      body ++ ("\n(Showing first 100 of ") ++ toString rows.length ++ (" results)")
    else body

/-- Fixed message returned on zero fetched rows. -/
def noDataMsg : String := "No data found matching your query."

/-- Error text returned when any warehouse step raises (`except` branch). -/
def execErrText (w : Warehouse) : String := ("Error executing query: ") ++ w.errMsg

/-- `execute_sql_query` of src/app.py (lines 173..222).  `connection` and
`cursor` start as `None`; the `finally` block closes whichever were actually
opened, swallowing errors from `close` itself (`try: close() except: pass`),
so close attempts never change the returned value and nothing escapes. -/
def execute_sql_query_app (w : Warehouse) : ExecResult :=
  if w.connectOk then
    if w.cursorOk then
      if w.executeOk then
        if w.fetchOk then
          if w.rows.isEmpty then ⟨noDataMsg, [], 1, 1, false⟩
          else ⟨formatResultsApp w.rows w.cols, w.rows, 1, 1, false⟩
        else ⟨execErrText w, [], 1, 1, false⟩
      else ⟨execErrText w, [], 1, 1, false⟩
    else ⟨execErrText w, [], 0, 1, false⟩
  else ⟨execErrText w, [], 0, 0, false⟩

/-- `execute_sql_query` of src/main.py (lines 161..196).  Resources are
scoped by `with` blocks inside one `try`: each opened resource is closed
exactly once on every path, but an error raised by a `close` itself (the
`with` block's exit) propagates into the `except` handler and turns even a
successful fetch into the error return. -/
def execute_sql_query_main (w : Warehouse) : ExecResult :=
  if w.connectOk then
    if w.cursorOk then
      if w.executeOk then
        if w.fetchOk then
          if w.cursorCloseOk && w.connCloseOk then
            if w.rows.isEmpty then ⟨noDataMsg, [], 1, 1, false⟩
            else ⟨formatResultsMain w.rows w.cols, w.rows, 1, 1, false⟩
          else ⟨execErrText w, [], 1, 1, false⟩
        else ⟨execErrText w, [], 1, 1, false⟩
      else ⟨execErrText w, [], 1, 1, false⟩
    else ⟨execErrText w, [], 0, 1, false⟩
  else ⟨execErrText w, [], 0, 0, false⟩

/-- C4: for every SQL string and every behaviour of the warehouse capability
(success, or an exception from connect, cursor creation, execute, fetch, or
either close), after `execute_sql_query` returns — in both variants — each
connection and cursor that was actually opened has been closed exactly once,
resources never opened are not closed, and no exception (including secondary
errors from `close` itself) propagates out of the function. -/
theorem C4_resource_discipline (w : Warehouse) :
    (execute_sql_query_app w).cursorCloses
        = (if w.connectOk && w.cursorOk then 1 else 0)
    ∧ (execute_sql_query_app w).connCloses = (if w.connectOk then 1 else 0)
    ∧ (execute_sql_query_app w).raised = false
    ∧ (execute_sql_query_main w).cursorCloses
        = (if w.connectOk && w.cursorOk then 1 else 0)
    ∧ (execute_sql_query_main w).connCloses = (if w.connectOk then 1 else 0)
    ∧ (execute_sql_query_main w).raised = false := by
  obtain ⟨co, cu, ex, fe, msg, rows, cols, cc, nc⟩ := w
  cases co <;> cases cu <;> cases ex <;> cases fe <;> cases cc <;> cases nc <;>
    cases rows <;>
      simp [execute_sql_query_app, execute_sql_query_main]

theorem foldl_append_eq_strJoin {α : Type} (f : α → String) :
    ∀ (l : List α) (init : String),
      l.foldl (fun acc x => acc ++ f x) init = init ++ strJoin (l.map f) := by
  intro l
  induction l with
  | nil => intro init; simp [strJoin, String.append_empty]
  | cons a t ih =>
    intro init
    simp only [List.foldl_cons, List.map_cons, strJoin]
    rw [ih (init ++ f a), String.append_assoc]

/-- A warehouse behaviour in which every step succeeds. -/
def okWarehouse (rows : List (List String)) (cols : List String) : Warehouse :=
  ⟨true, true, true, true, "", rows, cols, true, true⟩

/-- C3 counterexample: for exactly 1 fetched row and 1 column
(column `count`, value `7`) the executor's output is the header
`Query Results (1 rows):` plus a blank line plus the compact line — not the
single compact `column: value` line the claim states. -/
theorem C3_counterexample :
    (execute_sql_query_app (okWarehouse [[("7")]] [("count")])).text
        = ("Query Results (1 rows):\n\ncount: 7\n")
    ∧ (execute_sql_query_app (okWarehouse [[("7")]] [("count")])).text
        ≠ ("count: 7")
    ∧ (execute_sql_query_app (okWarehouse [[("7")]] [("count")])).text
        ≠ ("count: 7\n") := by
  refine ⟨by decide, by decide, by decide⟩

/-- C3 (amended): the executor's row formatting, in both variants, satisfies:
for 0 fetched rows the returned text is the fixed "no data found" message and
the raw row list is empty; for exactly 1 row and 1 column the output is the
`Query Results (1 rows):` header, a blank line, and the single compact
`column: value` line, with no per-row blank-line block after it; and for N
rows above the display limit L (L = 50 in src/app.py, L = 100 in
src/main.py) the output is the header followed by exactly L formatted row
blocks and a truncation suffix naming L and N. -/
theorem C3_row_formatting (w : Warehouse) (v c : String)
    (rowsA rowsB : List (List String)) (colsA colsB : List String)
    (hConn : w.connectOk = true) (hCur : w.cursorOk = true)
    (hExe : w.executeOk = true) (hFetch : w.fetchOk = true)
    (hCC : w.cursorCloseOk = true) (hNC : w.connCloseOk = true)
    (hEmpty : w.rows = [])
    (hA : rowsA.length > 50) (hB : rowsB.length > 100) :
    (execute_sql_query_app w).text = noDataMsg
    ∧ (execute_sql_query_app w).rows = []
    ∧ (execute_sql_query_main w).text = noDataMsg
    ∧ (execute_sql_query_main w).rows = []
    ∧ formatResultsApp [[v]] [c]
        = ("Query Results (1 rows):\n\n") ++ c ++ (": ") ++ v ++ ("\n")
    ∧ formatResultsMain [[v]] [c]
        = ("Query Results (1 rows):\n\n") ++ c ++ (": ") ++ v ++ ("\n")
    ∧ formatResultsApp rowsA colsA
        = ("Query Results (") ++ toString rowsA.length ++ (" rows):\n\n")
          ++ strJoin ((rowsA.take 50).map (rowBlock colsA))
          ++ ("\n(Showing first 50 of ") ++ toString rowsA.length ++ (" results)")
    ∧ ((rowsA.take 50).map (rowBlock colsA)).length = 50
    ∧ formatResultsMain rowsB colsB
        = ("Query Results (") ++ toString rowsB.length ++ (" rows):\n\n")
          ++ strJoin ((rowsB.take 100).map (rowBlock colsB))
          ++ ("\n(Showing first 100 of ") ++ toString rowsB.length ++ (" results)")
    ∧ ((rowsB.take 100).map (rowBlock colsB)).length = 100 := by
  have hzero :
      (execute_sql_query_app w).text = noDataMsg
      ∧ (execute_sql_query_app w).rows = []
      ∧ (execute_sql_query_main w).text = noDataMsg
      ∧ (execute_sql_query_main w).rows = [] := by
    simp [execute_sql_query_app, execute_sql_query_main,
      hConn, hCur, hExe, hFetch, hCC, hNC, hEmpty]
  have hone : ∀ (v c : String),
      formatResultsApp [[v]] [c]
        = ("Query Results (1 rows):\n\n") ++ c ++ (": ") ++ v ++ ("\n") := by
    intro v c
    show (("Query Results (") ++ toString (1 : Nat) ++ (" rows):\n\n"))
        ++ c ++ (": ") ++ v ++ ("\n")
      = ("Query Results (1 rows):\n\n") ++ c ++ (": ") ++ v ++ ("\n")
    rfl
  have honeM : ∀ (v c : String),
      formatResultsMain [[v]] [c]
        = ("Query Results (1 rows):\n\n") ++ c ++ (": ") ++ v ++ ("\n") := by
    intro v c
    show (("Query Results (") ++ toString (1 : Nat) ++ (" rows):\n\n"))
        ++ c ++ (": ") ++ v ++ ("\n")
      = ("Query Results (1 rows):\n\n") ++ c ++ (": ") ++ v ++ ("\n")
    rfl
  have hminA : min 50 rowsA.length = 50 := Nat.min_eq_left (Nat.le_of_lt hA)
  have hAne : ¬(rowsA.length = 1 ∧ colsA.length = 1) := by
    rintro ⟨h1, _⟩; omega
  have hBne : ¬(rowsB.length = 1 ∧ colsB.length = 1) := by
    rintro ⟨h1, _⟩; omega
  have hfmtA : formatResultsApp rowsA colsA
      = ("Query Results (") ++ toString rowsA.length ++ (" rows):\n\n")
        ++ strJoin ((rowsA.take 50).map (rowBlock colsA))
        ++ ("\n(Showing first 50 of ") ++ toString rowsA.length ++ (" results)") := by
    unfold formatResultsApp
    rw [if_neg hAne]
    simp only [hminA]
    rw [if_pos (by omega : rowsA.length > 50)]
    rw [foldl_append_eq_strJoin (rowBlock colsA) (rowsA.take 50)]
    have hlit : ∀ t : String,
        ("\n(Showing first ") ++ (toString (50 : Nat) ++ ((" of ") ++ t))
          = ("\n(Showing first 50 of ") ++ t := by
      intro t
      rw [← String.append_assoc, ← String.append_assoc]
      rfl
    simp only [String.append_assoc]
    rw [hlit]
  have hfmtB : formatResultsMain rowsB colsB
      = ("Query Results (") ++ toString rowsB.length ++ (" rows):\n\n")
        ++ strJoin ((rowsB.take 100).map (rowBlock colsB))
        ++ ("\n(Showing first 100 of ") ++ toString rowsB.length ++ (" results)") := by
    unfold formatResultsMain
    rw [if_neg hBne]
    rw [if_pos (by omega : rowsB.length > 100)]
    rw [foldl_append_eq_strJoin (rowBlock colsB) (rowsB.take 100)]
  have hlenA : ((rowsA.take 50).map (rowBlock colsA)).length = 50 := by
    rw [List.length_map, List.length_take]
    omega
  have hlenB : ((rowsB.take 100).map (rowBlock colsB)).length = 100 := by
    rw [List.length_map, List.length_take]
    omega
  exact ⟨hzero.1, hzero.2.1, hzero.2.2.1, hzero.2.2.2,
    hone v c, honeM v c, hfmtA, hlenA, hfmtB, hlenB⟩

/-- C3 witness: the amended row-formatting theorem applied at a concrete
all-success warehouse with zero rows, the concrete 1-row/1-column result
`count: 7`, 51 rows for the src/app.py limit, and 101 rows for the
src/main.py limit. -/
theorem C3_witness :
    (okWarehouse [] []).connectOk = true
    ∧ (List.replicate 51 [("x")]).length > 50
    ∧ (List.replicate 101 [("x")]).length > 100
    ∧ ((execute_sql_query_app (okWarehouse [] [])).text = noDataMsg
      ∧ (execute_sql_query_app (okWarehouse [] [])).rows = []
      ∧ (execute_sql_query_main (okWarehouse [] [])).text = noDataMsg
      ∧ (execute_sql_query_main (okWarehouse [] [])).rows = []
      ∧ formatResultsApp [[("7")]] [("count")]
          = ("Query Results (1 rows):\n\n") ++ ("count") ++ (": ") ++ ("7") ++ ("\n")
      ∧ formatResultsMain [[("7")]] [("count")]
          = ("Query Results (1 rows):\n\n") ++ ("count") ++ (": ") ++ ("7") ++ ("\n")
      ∧ formatResultsApp (List.replicate 51 [("x")]) [("a")]
          = ("Query Results (")
            ++ toString (List.replicate 51 [("x")] : List (List String)).length
            ++ (" rows):\n\n")
            ++ strJoin (((List.replicate 51 [("x")]).take 50).map (rowBlock [("a")]))
            ++ ("\n(Showing first 50 of ")
            ++ toString (List.replicate 51 [("x")] : List (List String)).length
            ++ (" results)")
      ∧ (((List.replicate 51 [("x")]).take 50).map (rowBlock [("a")])).length = 50
      ∧ formatResultsMain (List.replicate 101 [("x")]) [("a")]
          = ("Query Results (")
            ++ toString (List.replicate 101 [("x")] : List (List String)).length
            ++ (" rows):\n\n")
            ++ strJoin (((List.replicate 101 [("x")]).take 100).map (rowBlock [("a")]))
            ++ ("\n(Showing first 100 of ")
            ++ toString (List.replicate 101 [("x")] : List (List String)).length
            ++ (" results)")
      ∧ (((List.replicate 101 [("x")]).take 100).map (rowBlock [("a")])).length = 100) :=
  ⟨rfl, by decide, by decide,
    C3_row_formatting (okWarehouse [] []) ("7") ("count")
      (List.replicate 51 [("x")]) (List.replicate 101 [("x")]) [("a")] [("a")]
      rfl rfl rfl rfl rfl rfl rfl (by decide) (by decide)⟩

/-- One question/response pair of the current chat, as appended by the
orchestrator (`current_chat.append({"message": ..., "response": ...})`). -/
structure Turn where
  message : String
  response : String
deriving DecidableEq

/-- A session record as inserted into the MongoDB collection by
`save_chat_session` (timestamp omitted: wall-clock time is not modelled and
no claim depends on it). -/
structure SessionRecord where
  userid : String
  user : String
  mode : String
  title : String
  conversation : List Turn
deriving DecidableEq

/-- The fixed identity every session is stored under. -/
def USERID : String := "manager123"

/-- The fixed display name stored with every session. -/
def USER : String := "FleetManager"

/-- Behaviour of the MongoDB session-store capability: whether the
collection handle exists (in src/app.py it is `None` when the startup
connection failed), whether `insert_one` / `find` succeed, and the stored
documents. -/
structure Store where
  available : Bool
  insertOk : Bool
  findOk : Bool
  docs : List SessionRecord
deriving DecidableEq

/-- `save_chat_session` of src/app.py (lines 100..114): inserts only when the
chat is non-empty and the collection handle exists, and wraps the insert in
`try/except`, so a failing insert is swallowed.  Returns the store contents
after the call and whether an exception escaped. -/
def save_chat_session_app (store : Store) (title : String) (chat : List Turn)
    (mode : String) : List SessionRecord × Bool :=
  if chat ≠ [] ∧ store.available then
    if store.insertOk then (store.docs ++ [⟨USERID, USER, mode, title, chat⟩], false)
    else (store.docs, false)
  else (store.docs, false)

/-- `save_chat_session` of src/main.py (lines 84..95): inserts whenever the
chat is non-empty, with no availability guard and no `try/except`, so a
failing `insert_one` propagates to the caller. -/
def save_chat_session_main (store : Store) (title : String) (chat : List Turn)
    (mode : String) : List SessionRecord × Bool :=
  if chat ≠ [] then
    if store.available ∧ store.insertOk then
      (store.docs ++ [⟨USERID, USER, mode, title, chat⟩], false)
    else (store.docs, true)
  else (store.docs, false)

/-- `get_all_chats` of src/app.py (lines 116..125): returns the fixed
identity's sessions, or the empty list when the collection handle is missing
or `find` raises (caught by `try/except`).  Newest-first ordering is not
modelled (timestamps are not part of the model). -/
def get_all_chats_app (store : Store) : List SessionRecord × Bool :=
  if store.available then
    if store.findOk then (store.docs.filter (fun d => d.userid = USERID), false)
    else ([], false)
  else ([], false)

/-- `get_all_chats` of src/main.py (lines 97..100): no guard and no handler,
so a failing `find` propagates to the caller. -/
def get_all_chats_main (store : Store) : List SessionRecord × Bool :=
  if store.available ∧ store.findOk then
    (store.docs.filter (fun d => d.userid = USERID), false)
  else ([], true)

/-- C5 counterexample: in the src/main.py variant, persisting a non-empty
session while the store is unavailable raises to the caller (no
`try/except` around `insert_one`), and so does `listAll`; the claim that
both operations tolerate store unavailability therefore fails on this
variant. -/
theorem C5_counterexample :
    (save_chat_session_main ⟨false, false, true, []⟩ ("t")
        [⟨("m"), ("r")⟩] ("mode")).2 = true
    ∧ (get_all_chats_main ⟨false, false, true, []⟩).2 = true := by
  refine ⟨by decide, by decide⟩

/-- C5 (amended): persist is a no-op on a session with zero turns in both
variants; the src/app.py variant's persist and listAll tolerate session-store
unavailability (missing collection handle or a raising store call) by
degrading to a no-op / empty list without raising; the src/main.py variant
propagates store failures to the caller. -/
theorem C5_store_degradation (store : Store) (title : String)
    (chat : List Turn) (mode : String) :
    (save_chat_session_app store title chat mode).2 = false
    ∧ (get_all_chats_app store).2 = false
    ∧ (chat = [] →
        save_chat_session_app store title chat mode = (store.docs, false)
        ∧ save_chat_session_main store title chat mode = (store.docs, false))
    ∧ (store.available = false →
        save_chat_session_app store title chat mode = (store.docs, false)
        ∧ get_all_chats_app store = ([], false))
    ∧ (store.available = false → chat ≠ [] →
        (save_chat_session_main store title chat mode).2 = true
        ∧ (get_all_chats_main store).2 = true) := by
  obtain ⟨avail, ins, fnd, docs⟩ := store
  refine ⟨?_, ?_, ?_, ?_, ?_⟩
  · cases avail <;> cases ins <;> cases chat <;>
      simp [save_chat_session_app]
  · cases avail <;> cases fnd <;> simp [get_all_chats_app]
  · intro hchat
    subst hchat
    simp [save_chat_session_app, save_chat_session_main]
  · intro hav
    cases hav
    cases chat <;> simp [save_chat_session_app, get_all_chats_app]
  · intro hav hchat
    cases hav
    cases ins <;>
      simp [save_chat_session_main, get_all_chats_main, hchat]

/-- C5 witness: the amended store-degradation theorem applied at an
unavailable store, an empty chat, and concrete title/mode. -/
theorem C5_witness :
    (([] : List Turn) = []
      ∧ (Store.mk false true true []).available = false)
    ∧ ((save_chat_session_app ⟨false, true, true, []⟩ ("t") [] ("m")).2 = false
      ∧ (get_all_chats_app ⟨false, true, true, []⟩).2 = false
      ∧ save_chat_session_app ⟨false, true, true, []⟩ ("t") [] ("m") = ([], false)
      ∧ save_chat_session_main ⟨false, true, true, []⟩ ("t") [] ("m") = ([], false)
      ∧ get_all_chats_app ⟨false, true, true, []⟩ = ([], false)) := by
  have h := C5_store_degradation ⟨false, true, true, []⟩ ("t") [] ("m")
  exact ⟨⟨rfl, rfl⟩, h.1, h.2.1, (h.2.2.1 rfl).1, (h.2.2.1 rfl).2,
    (h.2.2.2.1 rfl).2⟩

/-- `start_new_chat` of src/app.py (lines 359..368) and src/main.py (lines
339..351): when the current chat is non-empty, saves it with title equal to
the first turn's message truncated to 50 characters, then resets the current
chat to empty; the two variants differ only in which `save_chat_session`
they call.  Returns the new current chat, the store contents after the call,
and whether an exception escaped. -/
def start_new_chat_app (store : Store) (chat : List Turn) (mode : String) :
    List Turn × List SessionRecord × Bool :=
  if chat ≠ [] then
    let title := pyTake 50 (chat.headD ⟨"", ""⟩).message
    let r := save_chat_session_app store title chat mode
    ([], r.1, r.2)
  else ([], store.docs, false)

/-- `start_new_chat` of src/main.py; see `start_new_chat_app`. -/
def start_new_chat_main (store : Store) (chat : List Turn) (mode : String) :
    List Turn × List SessionRecord × Bool :=
  if chat ≠ [] then
    let title := pyTake 50 (chat.headD ⟨"", ""⟩).message
    let r := save_chat_session_main store title chat mode
    ([], r.1, r.2)
  else ([], store.docs, false)

/-- C8: with the store available and accepting inserts, starting a new chat
over a non-empty current session persists exactly one record under the fixed
identity whose title is the first turn's message truncated to 50 characters
and resets the current session to empty; over an empty current session it
persists nothing and the current session remains empty.  Holds for both
variants. -/
theorem C8_start_new_chat (store : Store) (chat : List Turn) (mode : String)
    (hav : store.available = true) (hins : store.insertOk = true) :
    (chat ≠ [] →
        start_new_chat_app store chat mode
          = ([], store.docs
              ++ [⟨USERID, USER, mode, pyTake 50 (chat.headD ⟨"", ""⟩).message, chat⟩],
             false)
        ∧ start_new_chat_main store chat mode
          = ([], store.docs
              ++ [⟨USERID, USER, mode, pyTake 50 (chat.headD ⟨"", ""⟩).message, chat⟩],
             false))
    ∧ (chat = [] →
        start_new_chat_app store chat mode = ([], store.docs, false)
        ∧ start_new_chat_main store chat mode = ([], store.docs, false)) := by
  constructor
  · intro hne
    constructor
    · simp [start_new_chat_app, save_chat_session_app, hne, hav, hins]
    · simp [start_new_chat_main, save_chat_session_main, hne, hav, hins]
  · intro he
    subst he
    simp [start_new_chat_app, start_new_chat_main]

/-- C8 witness: the new-chat theorem applied at an available store and the
concrete one-turn session whose first message is `hello`, checking the
persisted record and the reset, plus the empty-session no-op at the same
store. -/
theorem C8_witness :
    ((Store.mk true true true []).available = true
      ∧ (Store.mk true true true []).insertOk = true)
    ∧ start_new_chat_app ⟨true, true, true, []⟩ [⟨("hello"), ("hi")⟩] ("👤 User Mode")
        = ([], [⟨USERID, USER, ("👤 User Mode"), ("hello"), [⟨("hello"), ("hi")⟩]⟩], false)
    ∧ start_new_chat_main ⟨true, true, true, []⟩ [⟨("hello"), ("hi")⟩] ("👤 User Mode")
        = ([], [⟨USERID, USER, ("👤 User Mode"), ("hello"), [⟨("hello"), ("hi")⟩]⟩], false)
    ∧ start_new_chat_app ⟨true, true, true, []⟩ [] ("👤 User Mode") = ([], [], false)
    ∧ start_new_chat_main ⟨true, true, true, []⟩ [] ("👤 User Mode") = ([], [], false) := by
  have h := C8_start_new_chat ⟨true, true, true, []⟩ [⟨("hello"), ("hi")⟩] ("👤 User Mode")
    rfl rfl
  have he := C8_start_new_chat ⟨true, true, true, []⟩ [] ("👤 User Mode") rfl rfl
  have hne : ([⟨("hello"), ("hi")⟩] : List Turn) ≠ [] := by simp
  refine ⟨⟨rfl, rfl⟩, ?_, ?_, (he.2 rfl).1, (he.2 rfl).2⟩
  · have := (h.1 hne).1
    simpa [pyTake, pyStripL] using this
  · have := (h.1 hne).2
    simpa [pyTake, pyStripL] using this

/-- Behaviour of one call to the language-model completion capability:
either a reply text or a raised exception (provider error or timeout — the
code treats them identically through `except Exception`). -/
inductive Completion where
  | ok (text : String)
  | err
deriving DecidableEq

/-- An apostrophe, as a string piece (several fixed messages contain one). -/
def apos : String := String.singleton (Char.ofNat 39)

/-- Fixed orchestrator message when the completion client is unavailable. -/
def serviceUnavailableMsg : String :=
  "The AI service is not available. Please check the configuration."

/-- Fixed message when SQL generation failed or produced an empty string. -/
def cannotGenerateMsg : String :=
  ("I couldn") ++ apos ++ ("t generate a valid query for your question. Please try rephrasing it.")

/-- Fixed user-mode error message of src/app.py (line 337). -/
def userErrorMsgApp : String :=
  ("I") ++ apos ++ ("m having trouble processing your request. Please try again.")

/-- Fixed user-mode error message of src/main.py (line 322). -/
def userErrorMsgMain : String :=
  ("I") ++ apos ++ ("m sorry, I") ++ apos
    ++ ("m having trouble processing your request. Please try again later.")

/-- `generate_sql_query` (src/app.py lines 136..171, src/main.py lines
112..159): on a successful completion, strips and fence-cleans the reply and
returns it; on any exception returns `None`.  The prompt construction does
not affect the returned value and is not modelled. -/
def generate_sql_query (c : Completion) : Option String :=
  match c with
  | .ok t => some (cleanSql t)
  | .err => none

/-- `interpret_sql_results` of src/app.py (lines 224..260): returns the
completion reply, or on failure the fixed prefix followed by the first 1000
characters of the formatted results (`query_results[:1000]`).  (The prompt
embeds only `query_results[:2000]`; prompts are not modelled.) -/
def interpret_sql_results_app (c : Completion)
    (question sql results : String) : String :=
  match c with
  | .ok t => t
  | .err => ("Here are the query results:\n\n") ++ pyTake 1000 results

/-- `interpret_sql_results` of src/main.py (lines 198..235): returns the
completion reply, or on failure the entire formatted results unchanged. -/
def interpret_sql_results_main (c : Completion)
    (question sql results : String) : String :=
  match c with
  | .ok t => t
  | .err => results

/-- Behaviour of all external capabilities for one orchestrator call. -/
structure Caps where
  llmAvailable : Bool
  genCompletion : Completion
  interpCompletion : Completion
  userCompletion : Completion
  warehouse : Warehouse
deriving DecidableEq

/-- The mode-selector label routing to the fleet pipeline; any other string
routes to user mode. -/
def fleetManagerModeLabel : String := "👔 Fleet Manager Mode"

/-- What one `chat_orchestrator` invocation produced: the yielded strings in
order, the current chat after the call, which capabilities were invoked, and
whether an exception escaped the generator. -/
structure OrchResult where
  yields : List String
  chat : List Turn
  genCalled : Bool
  warehouseCalled : Bool
  interpCalled : Bool
  userLlmCalled : Bool
  raised : Bool
deriving DecidableEq

/-- `chat_orchestrator` of src/app.py (lines 263..339).  The fleet branch is
wrapped in an outer `try/except`, but each stage already converts its own
failures to values, so every path below is a benign return; `raised` is
threaded from the executor outcome.  Each terminal appends one turn to
`current_chat` except the unavailable-client short-circuit, which yields the
fixed message and returns without appending. -/
def chat_orchestrator_app (caps : Caps) (message : String) (mode : String)
    (chat : List Turn) : OrchResult :=
  if caps.llmAvailable then
    if mode = fleetManagerModeLabel then
      match generate_sql_query caps.genCompletion with
      | none =>
        ⟨[cannotGenerateMsg], chat ++ [⟨message, cannotGenerateMsg⟩],
          true, false, false, false, false⟩
      | some sql =>
        if sql = ("") then
          ⟨[cannotGenerateMsg], chat ++ [⟨message, cannotGenerateMsg⟩],
            true, false, false, false, false⟩
        else
          let e := execute_sql_query_app caps.warehouse
          if e.rows.isEmpty then
            let r := ("📊 Query executed successfully.\n\n") ++ e.text
            ⟨[r], chat ++ [⟨message, r⟩], true, true, false, false, e.raised⟩
          else
            let fa := interpret_sql_results_app caps.interpCompletion message sql e.text
            let complete := ("**Query Executed:**\n```sql\n") ++ sql ++ ("\n```\n\n") ++ fa
            ⟨[complete], chat ++ [⟨message, complete⟩],
              true, true, true, false, e.raised⟩
    else
      match caps.userCompletion with
      | .ok t => ⟨[t], chat ++ [⟨message, t⟩], false, false, false, true, false⟩
      | .err =>
        ⟨[userErrorMsgApp], chat ++ [⟨message, userErrorMsgApp⟩],
          false, false, false, true, false⟩
  else ⟨[serviceUnavailableMsg], chat, false, false, false, false, false⟩

/-- `chat_orchestrator` of src/main.py (lines 239..324): same routing, plus
advisory progress yields before each stage of the fleet pipeline; the fleet
terminal appends the bare interpreter answer (no echoed-SQL prefix). -/
def chat_orchestrator_main (caps : Caps) (message : String) (mode : String)
    (chat : List Turn) : OrchResult :=
  if caps.llmAvailable then
    if mode = fleetManagerModeLabel then
      let p1 := ("🔍 Analyzing your question and generating database query...")
      match generate_sql_query caps.genCompletion with
      | none =>
        ⟨[p1, cannotGenerateMsg], chat ++ [⟨message, cannotGenerateMsg⟩],
          true, false, false, false, false⟩
      | some sql =>
        if sql = ("") then
          ⟨[p1, cannotGenerateMsg], chat ++ [⟨message, cannotGenerateMsg⟩],
            true, false, false, false, false⟩
        else
          let p2 := ("⚙️ Executing query...\n\n`") ++ sql ++ ("`\n\n")
          let e := execute_sql_query_main caps.warehouse
          if e.rows.isEmpty then
            let r := ("📊 Query executed successfully.\n\n") ++ e.text
            ⟨[p1, p2, r], chat ++ [⟨message, r⟩], true, true, false, false, e.raised⟩
          else
            let p3 := ("📊 Analyzing results...")
            let fa := interpret_sql_results_main caps.interpCompletion message sql e.text
            ⟨[p1, p2, p3, fa], chat ++ [⟨message, fa⟩],
              true, true, true, false, e.raised⟩
    else
      match caps.userCompletion with
      | .ok t => ⟨[t], chat ++ [⟨message, t⟩], false, false, false, true, false⟩
      | .err =>
        ⟨[userErrorMsgMain], chat ++ [⟨message, userErrorMsgMain⟩],
          false, false, false, true, false⟩
  else ⟨[serviceUnavailableMsg], chat, false, false, false, false, false⟩

/-- What one `respond` invocation produced: the chat-widget history after
the call, the current chat, and which calls were made. -/
structure RespondResult where
  history : List (String × String)
  chat : List Turn
  orchCalled : Bool
  genCalled : Bool
  warehouseCalled : Bool
  interpCalled : Bool
  userLlmCalled : Bool
deriving DecidableEq

/-- `respond` of src/app.py (lines 342..357): a blank (whitespace-only)
message yields the history unchanged and returns; otherwise the message is
appended to the history and the entry is overwritten with each orchestrator
yield, so the final history pairs the message with the last yield. -/
def respond_app (caps : Caps) (message : String)
    (history : List (String × String)) (mode : String) (chat : List Turn) :
    RespondResult :=
  if pyStrip message = ("") then
    ⟨history, chat, false, false, false, false, false⟩
  else
    let o := chat_orchestrator_app caps message mode chat
    ⟨history ++ [(message, o.yields.getLastD (""))], o.chat,
      true, o.genCalled, o.warehouseCalled, o.interpCalled, o.userLlmCalled⟩

/-- `respond` of src/main.py (lines 328..337): identical gating on a blank
message (it returns without yielding, leaving the history object unchanged),
then streams the orchestrator the same way. -/
def respond_main (caps : Caps) (message : String)
    (history : List (String × String)) (mode : String) (chat : List Turn) :
    RespondResult :=
  if pyStrip message = ("") then
    ⟨history, chat, false, false, false, false, false⟩
  else
    let o := chat_orchestrator_main caps message mode chat
    ⟨history ++ [(message, o.yields.getLastD (""))], o.chat,
      true, o.genCalled, o.warehouseCalled, o.interpCalled, o.userLlmCalled⟩

/-- C1: for every submitted message, in either mode and under any behaviour
of the external capabilities — completion, warehouse, session store,
including failure of all of them — both orchestrator variants yield at least
one textual response and no exception propagates past the orchestrator
boundary. -/
theorem C1_orchestrator_always_responds (caps : Caps) (message mode : String)
    (chat : List Turn) :
    (chat_orchestrator_app caps message mode chat).yields ≠ []
    ∧ (chat_orchestrator_app caps message mode chat).raised = false
    ∧ (chat_orchestrator_main caps message mode chat).yields ≠ []
    ∧ (chat_orchestrator_main caps message mode chat).raised = false := by
  have hraised : (execute_sql_query_app caps.warehouse).raised = false
      ∧ (execute_sql_query_main caps.warehouse).raised = false := by
    have h := C4_resource_discipline caps.warehouse
    exact ⟨h.2.2.1, h.2.2.2.2.2⟩
  unfold chat_orchestrator_app chat_orchestrator_main
  by_cases hl : caps.llmAvailable = true
  · by_cases hm : mode = fleetManagerModeLabel
    · cases hg : generate_sql_query caps.genCompletion with
      | none => simp [hl, hm, hg]
      | some sql =>
        by_cases hs : sql = ("")
        · simp [hl, hm, hg, hs]
        · by_cases hea : (execute_sql_query_app caps.warehouse).rows.isEmpty <;>
            by_cases hem : (execute_sql_query_main caps.warehouse).rows.isEmpty <;>
              simp [hl, hm, hg, hs, hea, hem, hraised.1, hraised.2]
    · cases hu : caps.userCompletion with
      | ok t => simp [hl, hm, hu]
      | err => simp [hl, hm, hu]
  · have hl' : caps.llmAvailable = false := by
      cases h : caps.llmAvailable with
      | true => exact absurd h hl
      | false => rfl
    simp [hl']

/-- A capability environment in which the completion client failed to
initialise (`llm_client = None`) and everything else also fails. -/
def capsAllDown : Caps :=
  ⟨false, Completion.err, Completion.err, Completion.err,
    ⟨false, false, false, false, "down", [], [], false, false⟩⟩

/-- C2 counterexample: when the completion capability is unavailable, both
orchestrator variants yield the fixed service-unavailable message but append
no Turn at all to the current session — not the exactly-one Turn the claim
states for that short-circuit. -/
theorem C2_counterexample :
    (chat_orchestrator_app capsAllDown ("hi") fleetManagerModeLabel []).chat = []
    ∧ (chat_orchestrator_app capsAllDown ("hi") fleetManagerModeLabel []).yields
        = [serviceUnavailableMsg]
    ∧ (chat_orchestrator_main capsAllDown ("hi") fleetManagerModeLabel []).chat = []
    ∧ (chat_orchestrator_main capsAllDown ("hi") fleetManagerModeLabel []).yields
        = [serviceUnavailableMsg]
    ∧ (chat_orchestrator_app capsAllDown ("hi") fleetManagerModeLabel []).chat.length
        ≠ ([] : List Turn).length + 1 := by
  refine ⟨by decide, by decide, by decide, by decide, by decide⟩

/-- C2 (amended): when the completion capability is available, every
terminal transition of either orchestrator variant appends exactly one Turn
`{message, response}` to the current session and yields that response as its
final yield; the short-circuit taken when the completion capability is
unavailable instead yields exactly the fixed service-unavailable message and
appends no Turn. -/
theorem C2_terminal_appends_one_turn (caps : Caps) (message mode : String)
    (chat : List Turn) :
    (caps.llmAvailable = true →
      ∃ r, (chat_orchestrator_app caps message mode chat).chat
            = chat ++ [⟨message, r⟩]
        ∧ (chat_orchestrator_app caps message mode chat).yields.getLast? = some r)
    ∧ (caps.llmAvailable = true →
      ∃ r, (chat_orchestrator_main caps message mode chat).chat
            = chat ++ [⟨message, r⟩]
        ∧ (chat_orchestrator_main caps message mode chat).yields.getLast? = some r)
    ∧ (caps.llmAvailable = false →
      (chat_orchestrator_app caps message mode chat).chat = chat
      ∧ (chat_orchestrator_app caps message mode chat).yields = [serviceUnavailableMsg]
      ∧ (chat_orchestrator_main caps message mode chat).chat = chat
      ∧ (chat_orchestrator_main caps message mode chat).yields = [serviceUnavailableMsg]) := by
  refine ⟨?_, ?_, ?_⟩
  · intro hl
    unfold chat_orchestrator_app
    by_cases hm : mode = fleetManagerModeLabel
    · cases hg : generate_sql_query caps.genCompletion with
      | none => exact ⟨cannotGenerateMsg, by simp [hl, hm, hg]⟩
      | some sql =>
        by_cases hs : sql = ("")
        · exact ⟨cannotGenerateMsg, by simp [hl, hm, hg, hs]⟩
        · by_cases hea : (execute_sql_query_app caps.warehouse).rows.isEmpty
          · exact ⟨("📊 Query executed successfully.\n\n")
              ++ (execute_sql_query_app caps.warehouse).text,
              by simp [hl, hm, hg, hs, hea]⟩
          · exact ⟨("**Query Executed:**\n```sql\n") ++ sql ++ ("\n```\n\n")
              ++ interpret_sql_results_app caps.interpCompletion message sql
                  (execute_sql_query_app caps.warehouse).text,
              by simp [hl, hm, hg, hs, hea]⟩
    · cases hu : caps.userCompletion with
      | ok t => exact ⟨t, by simp [hl, hm, hu]⟩
      | err => exact ⟨userErrorMsgApp, by simp [hl, hm, hu]⟩
  · intro hl
    unfold chat_orchestrator_main
    by_cases hm : mode = fleetManagerModeLabel
    · cases hg : generate_sql_query caps.genCompletion with
      | none => exact ⟨cannotGenerateMsg, by simp [hl, hm, hg, List.getLast?]⟩
      | some sql =>
        by_cases hs : sql = ("")
        · exact ⟨cannotGenerateMsg, by simp [hl, hm, hg, hs, List.getLast?]⟩
        · by_cases hem : (execute_sql_query_main caps.warehouse).rows.isEmpty
          · exact ⟨("📊 Query executed successfully.\n\n")
              ++ (execute_sql_query_main caps.warehouse).text,
              by simp [hl, hm, hg, hs, hem, List.getLast?]⟩
          · exact ⟨interpret_sql_results_main caps.interpCompletion message sql
                  (execute_sql_query_main caps.warehouse).text,
              by simp [hl, hm, hg, hs, hem, List.getLast?]⟩
    · cases hu : caps.userCompletion with
      | ok t => exact ⟨t, by simp [hl, hm, hu]⟩
      | err => exact ⟨userErrorMsgMain, by simp [hl, hm, hu]⟩
  · intro hl
    unfold chat_orchestrator_app chat_orchestrator_main
    simp [hl]

/-- C2 witness: the amended terminal-turn theorem applied with an available
user-mode completion on one side and, separately, the unavailable
short-circuit at `capsAllDown`. -/
theorem C2_witness :
    ((Caps.mk true (Completion.ok ("SELECT 1")) Completion.err
        (Completion.ok ("advice")) (okWarehouse [] [])).llmAvailable = true
      ∧ (∃ r, (chat_orchestrator_app
            ⟨true, Completion.ok ("SELECT 1"), Completion.err,
              Completion.ok ("advice"), okWarehouse [] []⟩
            ("hi") ("👤 User Mode") []).chat = [] ++ [⟨("hi"), r⟩]
          ∧ (chat_orchestrator_app
            ⟨true, Completion.ok ("SELECT 1"), Completion.err,
              Completion.ok ("advice"), okWarehouse [] []⟩
            ("hi") ("👤 User Mode") []).yields.getLast? = some r))
    ∧ (capsAllDown.llmAvailable = false
      ∧ (chat_orchestrator_main capsAllDown ("hi") ("👤 User Mode") []).chat = []
      ∧ (chat_orchestrator_main capsAllDown ("hi") ("👤 User Mode") []).yields
          = [serviceUnavailableMsg]) := by
  have h := C2_terminal_appends_one_turn
    ⟨true, Completion.ok ("SELECT 1"), Completion.err,
      Completion.ok ("advice"), okWarehouse [] []⟩ ("hi") ("👤 User Mode") []
  have hd := C2_terminal_appends_one_turn capsAllDown ("hi") ("👤 User Mode") []
  exact ⟨⟨rfl, h.1 rfl⟩, rfl, (hd.2.2 rfl).2.2.1, (hd.2.2 rfl).2.2.2⟩

/-- C6 counterexample: with the narration completion failing, the src/app.py
interpreter's fallback on the formatted results `count: 7` is the fixed
prefix plus the slice — not the first-1000-character slice alone; so the
fallback is not the truncated slice verbatim with no other content. -/
theorem C6_counterexample :
    interpret_sql_results_app Completion.err ("q") ("SELECT 1") ("count: 7")
        ≠ pyTake 1000 ("count: 7") := by
  decide

/-- C6 (amended): when the result interpreter's completion call fails, the
src/app.py variant returns the fixed prefix `Here are the query results:`
plus a blank line followed by the first 1000 characters of the formatted
results, and the src/main.py variant returns the entire formatted results
unchanged — in both cases the user still receives the data when narration
fails, but neither returns the bare truncated slice with no other content. -/
theorem C6_interpreter_fallback (question sql results : String) :
    interpret_sql_results_app Completion.err question sql results
        = ("Here are the query results:\n\n") ++ pyTake 1000 results
    ∧ interpret_sql_results_main Completion.err question sql results = results := by
  exact ⟨rfl, rfl⟩

/-- C9: for every incoming message consisting only of whitespace (the empty
string included), `respond` in both variants makes no completion or
warehouse call, appends no Turn to the current session, and leaves the chat
history unchanged. -/
theorem C9_blank_message_is_noop (caps : Caps) (message : String)
    (history : List (String × String)) (mode : String) (chat : List Turn)
    (h : message.data.all pyWs = true) :
    respond_app caps message history mode chat
        = ⟨history, chat, false, false, false, false, false⟩
    ∧ respond_main caps message history mode chat
        = ⟨history, chat, false, false, false, false, false⟩ := by
  have hstrip : pyStrip message = ("") := by
    apply strExt
    show pyStripL message.data = ([] : List Char)
    unfold pyStripL
    have hd : message.data.dropWhile pyWs = [] := by
      rw [List.dropWhile_eq_nil_iff]
      intro x hx
      exact List.all_eq_true.mp h x hx
    rw [hd, List.rdropWhile_nil]
  unfold respond_app respond_main
  rw [hstrip]
  simp

/-- C9 witness: the blank-message theorem applied at the concrete message
made of a space, a tab, and a newline, with a non-trivial history and chat. -/
theorem C9_witness :
    ((" \t\n").data.all pyWs = true
    ∧ respond_app capsAllDown (" \t\n") [(("a"), ("b"))] ("👤 User Mode")
          [⟨("m"), ("r")⟩]
        = ⟨[(("a"), ("b"))], [⟨("m"), ("r")⟩], false, false, false, false, false⟩
    ∧ respond_main capsAllDown (" \t\n") [(("a"), ("b"))] ("👤 User Mode")
          [⟨("m"), ("r")⟩]
        = ⟨[(("a"), ("b"))], [⟨("m"), ("r")⟩], false, false, false, false, false⟩) := by
  have h := C9_blank_message_is_noop capsAllDown (" \t\n") [(("a"), ("b"))]
    ("👤 User Mode") [⟨("m"), ("r")⟩] (by decide)
  exact ⟨by decide, h.1, h.2⟩

/-- C10: the result interpreter runs only when the executor returned a
non-empty raw-row list, and every executor failure — which returns an
error-description string with an empty row list — takes the same branch as
the zero-rows case: the final response is the `Query executed successfully`
prefix followed by the error-description text, with no narration call. -/
theorem C10_interpreter_gating (caps : Caps) (message : String)
    (chat : List Turn) :
    ((chat_orchestrator_app caps message fleetManagerModeLabel chat).interpCalled = true →
        (execute_sql_query_app caps.warehouse).rows ≠ [])
    ∧ ((chat_orchestrator_main caps message fleetManagerModeLabel chat).interpCalled = true →
        (execute_sql_query_main caps.warehouse).rows ≠ [])
    ∧ (∀ t, caps.llmAvailable = true → caps.genCompletion = Completion.ok t →
        cleanSql t ≠ ("") →
        ¬(caps.warehouse.connectOk = true ∧ caps.warehouse.cursorOk = true
          ∧ caps.warehouse.executeOk = true ∧ caps.warehouse.fetchOk = true) →
        (chat_orchestrator_app caps message fleetManagerModeLabel chat).interpCalled = false
        ∧ (chat_orchestrator_app caps message fleetManagerModeLabel chat).yields
            = [("📊 Query executed successfully.\n\n") ++ execErrText caps.warehouse]
        ∧ (chat_orchestrator_app caps message fleetManagerModeLabel chat).chat
            = chat ++ [⟨message,
                ("📊 Query executed successfully.\n\n") ++ execErrText caps.warehouse⟩]) := by
  refine ⟨?_, ?_, ?_⟩
  · intro hi
    unfold chat_orchestrator_app at hi
    by_cases hl : caps.llmAvailable = true
    · cases hg : generate_sql_query caps.genCompletion with
      | none => simp [hl, hg] at hi
      | some sql =>
        by_cases hs : sql = ("")
        · simp [hl, hg, hs] at hi
        · by_cases hea : (execute_sql_query_app caps.warehouse).rows.isEmpty
          · simp [hl, hg, hs, hea] at hi
          · intro hnil
            rw [hnil] at hea
            exact hea rfl
    · have hl' : caps.llmAvailable = false := by
        cases h : caps.llmAvailable with
        | true => exact absurd h hl
        | false => rfl
      simp [hl'] at hi
  · intro hi
    unfold chat_orchestrator_main at hi
    by_cases hl : caps.llmAvailable = true
    · cases hg : generate_sql_query caps.genCompletion with
      | none => simp [hl, hg] at hi
      | some sql =>
        by_cases hs : sql = ("")
        · simp [hl, hg, hs] at hi
        · by_cases hem : (execute_sql_query_main caps.warehouse).rows.isEmpty
          · simp [hl, hg, hs, hem] at hi
          · intro hnil
            rw [hnil] at hem
            exact hem rfl
    · have hl' : caps.llmAvailable = false := by
        cases h : caps.llmAvailable with
        | true => exact absurd h hl
        | false => rfl
      simp [hl'] at hi
  · intro t hl hg hs hfail
    have hexec : (execute_sql_query_app caps.warehouse).text = execErrText caps.warehouse
        ∧ (execute_sql_query_app caps.warehouse).rows = [] := by
      unfold execute_sql_query_app
      by_cases h1 : caps.warehouse.connectOk = true
      · by_cases h2 : caps.warehouse.cursorOk = true
        · by_cases h3 : caps.warehouse.executeOk = true
          · by_cases h4 : caps.warehouse.fetchOk = true
            · exact absurd ⟨h1, h2, h3, h4⟩ hfail
            · simp [h1, h2, h3, h4]
          · simp [h1, h2, h3]
        · simp [h1, h2]
      · simp [h1]
    unfold chat_orchestrator_app
    simp [hl, hg, generate_sql_query, hs, hexec.1, hexec.2]

/-- C10 witness: the interpreter-gating theorem applied at a concrete
environment whose SQL generation succeeds with `SELECT 1` but whose
warehouse connect raises with message `boom`. -/
theorem C10_witness :
    ((Caps.mk true (Completion.ok ("SELECT 1")) Completion.err Completion.err
        ⟨false, true, true, true, "boom", [], [], true, true⟩).llmAvailable = true
      ∧ cleanSql ("SELECT 1") ≠ ("")
      ∧ ¬((false : Bool) = true ∧ (true : Bool) = true ∧ (true : Bool) = true
          ∧ (true : Bool) = true))
    ∧ ((chat_orchestrator_app
          ⟨true, Completion.ok ("SELECT 1"), Completion.err, Completion.err,
            ⟨false, true, true, true, "boom", [], [], true, true⟩⟩
          ("q") fleetManagerModeLabel []).interpCalled = false
      ∧ (chat_orchestrator_app
          ⟨true, Completion.ok ("SELECT 1"), Completion.err, Completion.err,
            ⟨false, true, true, true, "boom", [], [], true, true⟩⟩
          ("q") fleetManagerModeLabel []).yields
        = [("📊 Query executed successfully.\n\n")
            ++ execErrText ⟨false, true, true, true, "boom", [], [], true, true⟩]) := by
  have h := C10_interpreter_gating
    ⟨true, Completion.ok ("SELECT 1"), Completion.err, Completion.err,
      ⟨false, true, true, true, "boom", [], [], true, true⟩⟩ ("q") []
  have hc := h.2.2 ("SELECT 1") rfl rfl (by decide) (by decide)
  exact ⟨⟨rfl, by decide, by decide⟩, hc.1, hc.2.1⟩

end Chatbot
